import Mathlib

/-!
Shallow embedding of the tg-server-health-bot health-collection core
(src/core/health_checker.py, src/core/ssh_manager.py, src/config.py).

Python semantics are modelled explicitly:
* Python strings are Lean `String`s, with the string methods the code
  uses (`split`, `strip`, `replace`, `in`, slicing) re-implemented over
  `List Char` so that every definition evaluates by kernel reduction;
* Python `float` is modelled by `PyFloat`, an explicit (numerator,
  denominator) fraction with exact decimal arithmetic; `PyFloat.toRat`
  interprets it in `ℚ` for stating numeric properties, and Python
  `round` is decimal round-half-to-even;
* code that can raise an exception is modelled in the `Except String`
  monad: `.error` stands for an uncaught Python exception and
  `try/except` blocks become explicit `match`es on the result.
-/

/-! ### Python string primitives -/

/-- Numeric value of a list of decimal digit characters. -/

def digitsVal (l : List Char) : Nat :=
  l.foldl (fun a c => a * 10 + (c.toNat - '0'.toNat)) 0

/-- Characters of Python `s.strip()`: drop whitespace from both ends. -/

def trimChars (l : List Char) : List Char :=
  ((l.dropWhile Char.isWhitespace).reverse.dropWhile Char.isWhitespace).reverse

/-- Model of Python `s.strip()`. -/

def pyTrim (s : String) : String := String.mk (trimChars s.toList)

/-- Model of Python `s.upper()`. -/

def pyUpper (s : String) : String := String.mk (s.toList.map Char.toUpper)

/-- If `pre` is a prefix of `l`, the remaining characters. -/

def stripPre : List Char → List Char → Option (List Char)
  | [], l => some l
  | _ :: _, [] => none
  | p :: ps, c :: cs => if p = c then stripPre ps cs else none

/-- Model of Python `sub in s` on the character level. -/

def containsSub (sub : List Char) : List Char → Bool
  | [] => (stripPre sub []).isSome
  | c :: cs => (stripPre sub (c :: cs)).isSome || containsSub sub cs

/-- Model of Python `sub in s`. -/

def strContains (s sub : String) : Bool := containsSub sub.toList s.toList

/-- Model of Python `c in s` for a single character. -/

def strContainsChar (s : String) (c : Char) : Bool :=
  s.toList.any (fun x => x = c)

/-- Remove every (leftmost, non-overlapping) occurrence of `sub`;
`fuel` bounds the recursion and is instantiated with the input length. -/

def removeSubGo (sub : List Char) : Nat → List Char → List Char
  | _, [] => []
  | 0, l => l
  | Nat.succ m, c :: cs =>
    match stripPre sub (c :: cs) with
    | some rest => removeSubGo sub m rest
    | none => c :: removeSubGo sub m cs

/-- Model of Python `s.replace(sub, "")` (the only replacement the code
performs). -/

def pyReplaceDel (s sub : String) : String :=
  String.mk (removeSubGo sub.toList s.toList.length s.toList)

/-- Split on a single separator character (Python `s.split(sep)` for a
one-character `sep`, the only kind the code uses). -/

def splitCharGo (sep : Char) : List Char → List Char → List (List Char)
  | acc, [] => [acc.reverse]
  | acc, c :: cs =>
    if c = sep then acc.reverse :: splitCharGo sep [] cs
    else splitCharGo sep (c :: acc) cs

/-- Model of Python `s.split(sep)` for a one-character separator. -/

def pySplitChar (s : String) (sep : Char) : List String :=
  (splitCharGo sep [] s.toList).map String.mk

/-- Model of Python `s.strip().split("\n")`: the line list every parser
iterates over. -/

def pyLines (s : String) : List String := pySplitChar (pyTrim s) '\n'

/-- Whitespace-run splitting (Python `s.split()` with no arguments). -/

def wsSplitGo : List Char → List Char → List (List Char)
  | acc, [] => if acc.isEmpty then [] else [acc.reverse]
  | acc, c :: cs =>
    if c.isWhitespace then
      if acc.isEmpty then wsSplitGo [] cs else acc.reverse :: wsSplitGo [] cs
    else wsSplitGo (c :: acc) cs

/-- Model of Python `s.split()`. -/

def pySplitWs (s : String) : List String :=
  (wsSplitGo [] s.toList).map String.mk

/-- Whitespace splitting with a maximum number of splits: after
`maxsplit` tokens, the remainder (leading whitespace skipped) is one
final verbatim token, as in CPython. -/

def wsSplitMaxGo : Nat → List Char → List (List Char)
  | 0, l =>
    (match l.dropWhile Char.isWhitespace with
     | [] => []
     | c :: cs => [c :: cs])
  | Nat.succ m, l =>
    (match l.dropWhile Char.isWhitespace with
     | [] => []
     | c :: cs =>
       (c :: cs.takeWhile (fun x => !x.isWhitespace)) ::
         wsSplitMaxGo m (cs.dropWhile (fun x => !x.isWhitespace)))

/-- Model of Python `s.split(None, maxsplit)`. -/

def pySplitWsMax (s : String) (maxsplit : Nat) : List String :=
  (wsSplitMaxGo maxsplit s.toList).map String.mk

/-- Model of Python `s.rstrip(c)` for a single character. -/

def pyRstrip (s : String) (c : Char) : String :=
  String.mk ((s.toList.reverse.dropWhile (fun x => x = c)).reverse)

/-- Model of Python `s.strip(c)` for a single character. -/

def pyStripChar (s : String) (c : Char) : String :=
  String.mk ((((s.toList.dropWhile (fun x => x = c)).reverse).dropWhile (fun x => x = c)).reverse)

/-- Model of Python `s[:n]` (take the first `n` characters). -/

def pyTake (s : String) (n : Nat) : String := String.mk (s.toList.take n)

/-- Model of Python `s.startswith(c)` for a single character. -/

def pyStartsWith (s : String) (c : Char) : Bool :=
  match s.toList with
  | [] => false
  | x :: _ => x = c

/-! ### Python numbers -/

/-- Model of Python `int(s)`: optional sign, one or more decimal digits,
surrounding whitespace allowed; anything else raises `ValueError`. -/

def pythonInt (s : String) : Except String Int :=
  let (sgn, ds) : Int × List Char :=
    match trimChars s.toList with
    | '-' :: rest => (-1, rest)
    | '+' :: rest => (1, rest)
    | l => (1, l)
  if !ds.isEmpty && ds.all Char.isDigit then
    .ok (sgn * (digitsVal ds : Int))
  else
    .error ("ValueError: invalid literal for int: " ++ s)

/-- Python `float` values, kept as an explicit fraction (numerator over
a positive denominator, not necessarily reduced) so that every
computation of the embedding evaluates by kernel reduction. -/

structure PyFloat where
  num : Int
  den : Nat
  deriving Repr, DecidableEq

deriving instance DecidableEq for Except

instance (n : Nat) : OfNat PyFloat n := ⟨⟨n, 1⟩⟩

namespace PyFloat

/-- Embed an integer. -/

def ofInt (n : Int) : PyFloat := ⟨n, 1⟩

/-- Embed a natural number. -/

def ofN (n : Nat) : PyFloat := ⟨n, 1⟩

/-- Multiplication. -/

def mul (a b : PyFloat) : PyFloat := ⟨a.num * b.num, a.den * b.den⟩

/-- Addition. -/

def add (a b : PyFloat) : PyFloat :=
  ⟨a.num * b.den + b.num * a.den, a.den * b.den⟩

/-- Division (the caller guards against a zero divisor, as Python raises
`ZeroDivisionError` there). -/

def div (a b : PyFloat) : PyFloat :=
  if 0 ≤ b.num then ⟨a.num * b.den, a.den * b.num.toNat⟩
  else ⟨-(a.num * b.den), a.den * (-b.num).toNat⟩

/-- `a ≤ b` by cross-multiplication (valid for positive denominators). -/

def le (a b : PyFloat) : Bool :=
  decide (a.num * (b.den : Int) ≤ b.num * (a.den : Int))

/-- The rational value of a `PyFloat`. -/

def toRat (a : PyFloat) : Rat := (a.num : Rat) / (a.den : Rat)

/-- Whether the value is exactly zero. -/

def isZero (a : PyFloat) : Bool := a.num = 0

end PyFloat

/-- Model of Python `round(x, nd)` for a `PyFloat` with positive
denominator: decimal round-half-to-even to `nd` places. -/

def pyRound (x : PyFloat) (nd : Nat) : PyFloat :=
  let p : Nat := 10 ^ nd
  let n : Int := x.num * p
  let d : Int := (x.den : Int)
  let f : Int := Int.fdiv n d
  let rem : Int := n - f * d
  let r : Int :=
    if d < 2 * rem then f + 1
    else if 2 * rem < d then f
    else if f % 2 = 0 then f else f + 1
  ⟨r, p⟩

/-- Model of Python fixed-point formatting `f"{x:.ndf}"`. -/

def fmtFixed (x : PyFloat) (nd : Nat) : String :=
  let y := pyRound x nd
  let p : Nat := 10 ^ nd
  let sign := if y.num < 0 then "-" else ""
  let scaled : Nat := y.num.natAbs
  if nd = 0 then sign ++ Nat.repr scaled
  else
    let fpStr := Nat.repr (scaled % p)
    let pad := String.mk (List.replicate (nd - fpStr.length) '0')
    sign ++ Nat.repr (scaled / p) ++ "." ++ pad ++ fpStr

/-- Model of Python `str()` on the decimal-valued floats the analyzer
prints (exact for values whose denominator is a power of ten, which is
what `round` produces): integer part, then the fractional digits with
trailing zeros removed, at least one digit. -/

def pyStr (x : PyFloat) : String :=
  let sign := if x.num < 0 then "-" else ""
  let n := x.num.natAbs
  if x.den = 1 then sign ++ Nat.repr n ++ ".0"
  else
    let k := (Nat.repr x.den).length - 1
    let fpStr := Nat.repr (n % x.den)
    let pad := String.mk (List.replicate (k - fpStr.length) '0')
    let frac := String.mk (((pad ++ fpStr).toList.reverse.dropWhile (fun c => c = '0')).reverse)
    sign ++ Nat.repr (n / x.den) ++ "." ++ (if frac.isEmpty then "0" else frac)

/-- Model of Python `int()` on a float: truncation toward zero. -/

def pyFloatToInt (x : PyFloat) : Int := x.num.tdiv (x.den : Int)

/-- The common `ValueError` text of a failed `float(s)`. -/

def floatErr (s : String) : String :=
  "ValueError: could not convert string to float: " ++ s

/-- Model of Python `float(s)` on decimal literals: optional sign, an
integer part and/or a fractional part around an optional dot, at least
one digit overall; anything else raises `ValueError`. -/

def pythonFloat (s : String) : Except String PyFloat :=
  let (sgn, body) : Int × List Char :=
    match trimChars s.toList with
    | '-' :: rest => (-1, rest)
    | '+' :: rest => (1, rest)
    | l => (1, l)
  let intPart := body.takeWhile Char.isDigit
  match body.dropWhile Char.isDigit with
  | [] =>
      if intPart.isEmpty then .error (floatErr s)
      else .ok ⟨sgn * digitsVal intPart, 1⟩
  | '.' :: fracRest =>
      let fracPart := fracRest.takeWhile Char.isDigit
      if !(fracRest.dropWhile Char.isDigit).isEmpty then .error (floatErr s)
      else if intPart.isEmpty && fracPart.isEmpty then .error (floatErr s)
      else
        .ok ⟨sgn * (digitsVal intPart * 10 ^ fracPart.length + digitsVal fracPart),
             10 ^ fracPart.length⟩
  | _ => .error (floatErr s)

/-! ### Threshold classification (src/config.py `Settings.thresholds`,
src/core/health_checker.py `_get_status`) -/

/-- One `{warning, critical}` threshold pair. -/

structure Threshold where
  warning : PyFloat
  critical : PyFloat
  deriving Repr, DecidableEq

/-- Model of Python `self.thresholds.get(metric_type, {"warning": 70, "critical": 90})`. -/

def thresholds_get (table : List (String × Threshold)) (k : String) : Threshold :=
  match table.find? (fun p => p.1 == k) with
  | some p => p.2
  | none => ⟨70, 90⟩

/-- `HealthChecker._get_status`: classify a value against the threshold
pair for its metric kind (`value >= critical`, then `value >= warning`). -/

def get_status (table : List (String × Threshold)) (value : PyFloat) (metric_type : String) :
    String :=
  let th := thresholds_get table metric_type
  if th.critical.le value then "critical"
  else if th.warning.le value then "warning"
  else "ok"

/-- `Settings.thresholds` with the default field values of src/config.py
(cpu 70/90, ram 70/85, disk 70/85, swap 30/50). -/

def defaultThresholds : List (String × Threshold) :=
  [("cpu", ⟨70, 90⟩), ("ram", ⟨70, 85⟩), ("disk", ⟨70, 85⟩), ("swap", ⟨30, 50⟩)]

/-! ### Size-string normalizer (`HealthChecker._parse_size_to_gb`) -/

/-- `HealthChecker._parse_size_to_gb`: normalize a size token such as
"3.7GB" or "500MB" to GB; the whole body is inside a
`try/except ValueError: return 0`. -/

def parse_size_to_gb (size_str : String) : PyFloat :=
  let s := pyUpper (pyTrim size_str)
  let res : Except String PyFloat :=
    if strContains s "GB" then pythonFloat (pyReplaceDel s "GB")
    else if strContains s "MB" then
      (pythonFloat (pyReplaceDel s "MB")).map (fun v => v.div (PyFloat.ofN 1024))
    else if strContains s "KB" then
      (pythonFloat (pyReplaceDel s "KB")).map (fun v => v.div (PyFloat.ofN (1024 * 1024)))
    else if strContainsChar s 'B' then
      (pythonFloat (pyReplaceDel s "B")).map (fun v => v.div (PyFloat.ofN (1024 * 1024 * 1024)))
    else pythonFloat s
  match res with
  | .ok v => v
  | .error _ => 0

/-! ### Data model (src/core/health_checker.py dataclasses) -/

/-- `Metric`: a single metric with value and status
(ok/warning/critical/error). -/

structure Metric where
  name : String
  value : PyFloat
  unit : String
  status : String
  details : String := ""
  deriving Repr, DecidableEq

/-- `ProcessInfo`: one row of `ps aux` output. -/

structure ProcessInfo where
  pid : Int
  user : String
  cpu : PyFloat
  mem : PyFloat
  command : String
  deriving Repr, DecidableEq

/-! ### Memory parser (`HealthChecker._parse_memory`) -/

/-- The f-string detail `f"{used / (1024**3):.1f}GB / {total / (1024**3):.1f}GB"`. -/

def memDetail (used total : Int) : String :=
  fmtFixed (PyFloat.div ⟨used, 1⟩ (PyFloat.ofN (1024 ^ 3))) 1 ++ "GB / " ++
    fmtFixed (PyFloat.div ⟨total, 1⟩ (PyFloat.ofN (1024 ^ 3))) 1 ++ "GB"

/-- One loop iteration of `_parse_memory`: update the (ram, swap) pair
from one line of `free -b` output; `int(...)` failures propagate as
exceptions. -/

def parse_memory_line (table : List (String × Threshold)) (st : Metric × Metric)
    (line : String) : Except String (Metric × Metric) :=
  match pySplitWs line with
  | p0 :: p1 :: p2 :: _ =>
    if p0 = "Mem:" then
      match pythonInt p1 with
      | .error e => .error e
      | .ok total =>
        match pythonInt p2 with
        | .error e => .error e
        | .ok used =>
          if total > 0 then
            let pct := PyFloat.mul (PyFloat.div ⟨used, 1⟩ ⟨total, 1⟩) ⟨100, 1⟩
            .ok (⟨"RAM", pyRound pct 1, "%", get_status table pct "ram",
                  memDetail used total⟩, st.2)
          else .ok st
    else if p0 = "Swap:" then
      match pythonInt p1 with
      | .error e => .error e
      | .ok total =>
        match pythonInt p2 with
        | .error e => .error e
        | .ok used =>
          if total > 0 then
            let pct := PyFloat.mul (PyFloat.div ⟨used, 1⟩ ⟨total, 1⟩) ⟨100, 1⟩
            .ok (st.1, ⟨"Swap", pyRound pct 1, "%", get_status table pct "swap",
                  memDetail used total⟩)
          else .ok st
    else .ok st
  | _ => .ok st

/-- The line loop of `_parse_memory`. -/

def parse_memory_go (table : List (String × Threshold)) :
    (Metric × Metric) → List String → Except String (Metric × Metric)
  | st, [] => .ok st
  | st, line :: rest =>
    match parse_memory_line table st line with
    | .error e => .error e
    | .ok st2 => parse_memory_go table st2 rest

/-- `HealthChecker._parse_memory`: fold `parse_memory_line` over the
lines, starting from the sentinel pair
(RAM error "Failed to parse", Swap ok "No swap"). -/

def parse_memory (table : List (String × Threshold)) (output : String) :
    Except String (Metric × Metric) :=
  parse_memory_go table
    (⟨"RAM", 0, "%", "error", "Failed to parse"⟩, ⟨"Swap", 0, "%", "ok", "No swap"⟩)
    (pyLines output)

/-! ### Disk parser (`HealthChecker._parse_disk`) -/

/-- One loop iteration of `_parse_disk`: a line with at least 5
whitespace fields has its total/used parsed by `int(...)` (failures
propagate) and its percentage by `float(...)` inside a
`try/except ValueError: pass`. -/

def parse_disk_line (table : List (String × Threshold)) (line : String) :
    Except String (Option Metric) :=
  match pySplitWs line with
  | p0 :: p1 :: p2 :: _ :: p4 :: _ =>
    match pythonInt p1 with
    | .error e => .error e
    | .ok total =>
      match pythonInt p2 with
      | .error e => .error e
      | .ok used =>
        match pythonFloat (pyRstrip p4 '%') with
        | .error _ => .ok none
        | .ok pct =>
          .ok (some ⟨"Disk " ++ p0, pct, "%", get_status table pct "disk",
                memDetail used total⟩)
  | _ => .ok none

/-- The metric a line contributes (none when the line is skipped or the
whole parse aborts). -/

def diskLineOpt (table : List (String × Threshold)) (line : String) : Option Metric :=
  match parse_disk_line table line with
  | .ok o => o
  | .error _ => none

/-- The accumulation loop of `_parse_disk`. -/

def parse_disk_go (table : List (String × Threshold)) :
    List Metric → List String → Except String (List Metric)
  | acc, [] => .ok acc
  | acc, line :: rest =>
    match parse_disk_line table line with
    | .error e => .error e
    | .ok none => parse_disk_go table acc rest
    | .ok (some m) => parse_disk_go table (acc ++ [m]) rest

/-- `HealthChecker._parse_disk`. -/

def parse_disk (table : List (String × Threshold)) (output : String) :
    Except String (List Metric) :=
  parse_disk_go table [] (pyLines output)

/-! ### Process parser (`HealthChecker._parse_processes`) -/

/-- Model of Python `str(n)` for an int. -/

def intStr (n : Int) : String :=
  if n < 0 then "-" ++ Nat.repr (-n).toNat else Nat.repr n.toNat

/-- `HealthChecker._parse_processes`: one `ProcessInfo` per line with at
least 11 `split(None, 10)` fields whose pid/cpu/mem parse; parse
failures are swallowed by the `try/except (ValueError, IndexError)`. -/

def parse_processes (output : String) : List ProcessInfo :=
  (pyLines output).foldl (fun acc line =>
    match pySplitWsMax line 10 with
    | p0 :: p1 :: p2 :: p3 :: _ :: _ :: _ :: _ :: _ :: _ :: p10 :: _ =>
      match pythonInt p1, pythonFloat p2, pythonFloat p3 with
      | .ok pid, .ok cpu, .ok mem => acc ++ [⟨pid, p0, cpu, mem, pyTake p10 50⟩]
      | _, _, _ => acc
    | _ => acc) []

/-! ### Session-count parsing (inline in `HealthChecker.collect`) -/

/-- The sessions block of `collect`: `int(r.stdout.strip())` inside a
`try/except ValueError: pass`, then fixed absolute thresholds
(critical at ≥ 50, warning at ≥ 10). -/

def parse_sessions (stdout : String) : Option Metric :=
  match pythonInt (pyTrim stdout) with
  | .error _ => none
  | .ok session_count =>
    let status :=
      if session_count ≥ 50 then "critical"
      else if session_count ≥ 10 then "warning"
      else "ok"
    some ⟨"Sessions", PyFloat.ofInt session_count, "users", status,
          intStr session_count ++ " active sessions"⟩

/-! ### Docker parser (`HealthChecker._parse_docker`) -/

/-- One loop iteration of `_parse_docker`: tab-split the line; with at
least 2 fields, add the parsed size and reclaimable size; the
`reclaim_str.split()[0]` indexing raises `IndexError` when the third
field is non-empty whitespace. -/

def parse_docker_line (acc : PyFloat × PyFloat) (line : String) :
    Except String (PyFloat × PyFloat) :=
  match pySplitChar line '\t' with
  | _ :: p1 :: rest =>
    let reclaim0 : String := match rest with | r :: _ => r | [] => "0"
    if reclaim0.isEmpty then
      .ok (PyFloat.add acc.1 (parse_size_to_gb p1),
           PyFloat.add acc.2 (parse_size_to_gb "0"))
    else
      match pySplitWs reclaim0 with
      | [] => .error "IndexError: list index out of range"
      | r0 :: _ =>
        .ok (PyFloat.add acc.1 (parse_size_to_gb p1),
             PyFloat.add acc.2 (parse_size_to_gb r0))
  | _ => .ok acc

/-- The accumulation loop of `_parse_docker`. -/

def parse_docker_go : (PyFloat × PyFloat) → List String → Except String (PyFloat × PyFloat)
  | acc, [] => .ok acc
  | acc, line :: rest =>
    match parse_docker_line acc line with
    | .error e => .error e
    | .ok acc2 => parse_docker_go acc2 rest

/-- `HealthChecker._parse_docker`: despite the `Optional[Metric]`
signature, every non-raising path returns a `Metric` built from the
summed sizes (critical at ≥ 15 GB, warning at ≥ 5 GB). -/

def parse_docker (output : String) : Except String (Option Metric) :=
  match parse_docker_go (⟨0, 1⟩, ⟨0, 1⟩) (pyLines output) with
  | .error e => .error e
  | .ok (total, reclaim) =>
    let status :=
      if (PyFloat.ofN 15).le total then "critical"
      else if (PyFloat.ofN 5).le total then "warning"
      else "ok"
    .ok (some ⟨"Docker", pyRound total 1, "GB", status,
          "Reclaimable: " ++ fmtFixed reclaim 1 ++ "GB"⟩)

/-! ### Journal parser (`HealthChecker._parse_journal`) -/

/-- Characters matched by the regex class `[\d.]`. -/

def isDotDigit (c : Char) : Bool := c.isDigit || c = '.'

/-- Model of `re.search(r'([\d.]+)([KMGT]?)', output)`: the leftmost
maximal run of digits/dots, and the single following K/M/G/T character
if present. -/

def journalMatch : List Char → Option (List Char × String)
  | [] => none
  | c :: cs =>
    if isDotDigit c then
      some (c :: cs.takeWhile isDotDigit,
        match cs.dropWhile isDotDigit with
        | u :: _ => if u = 'K' ∨ u = 'M' ∨ u = 'G' ∨ u = 'T' then String.mk [u] else ""
        | [] => "")
    else journalMatch cs

/-- The Metric `_parse_journal` builds from the computed size in MB
(critical at ≥ 1000 MB, warning at ≥ 500 MB). -/

def journalMetric (size_mb : PyFloat) : Metric :=
  let status :=
    if (PyFloat.ofN 1000).le size_mb then "critical"
    else if (PyFloat.ofN 500).le size_mb then "warning"
    else "ok"
  ⟨"Journal", pyRound size_mb 0, "MB", status,
   "Systemd logs: " ++ fmtFixed size_mb 0 ++ "MB"⟩

/-- `HealthChecker._parse_journal`: regex-extract a size token and
convert it to MB (the matched unit is already upper-case, so the
`.upper()` call is the identity); `float(...)` on a digit-free match
such as "." raises and propagates. -/

def parse_journal (output : String) : Except String (Option Metric) :=
  match journalMatch (pyTrim output).toList with
  | none => .ok (some (journalMetric 0))
  | some (g1, unit) =>
    match pythonFloat (String.mk g1) with
    | .error e => .error e
    | .ok value =>
      let size_mb :=
        if unit = "G" then PyFloat.mul value ⟨1024, 1⟩
        else if unit = "M" then value
        else if unit = "K" then PyFloat.div value (PyFloat.ofN 1024)
        else PyFloat.div value (PyFloat.ofN (1024 * 1024))
      .ok (some (journalMetric size_mb))

/-! ### Load-average parsing (inline in `HealthChecker.collect`) -/

/-- The load block of `collect`: `float(parts[0])` and the
`parts[1]`/`parts[2]` details are inside a
`try/except (ValueError, IndexError): pass`, but the division
`load_1m / cores` raises `ZeroDivisionError` uncaught when the parsed
core count is 0. Returns the CPU-load metric and the rounded per-core
load. -/

def parse_load (table : List (String × Threshold)) (cores : Int) (stdout : String) :
    Except String (Option (Metric × PyFloat)) :=
  match pySplitWs (pyTrim stdout) with
  | [] => .ok none
  | p0 :: rest =>
    match pythonFloat p0 with
    | .error _ => .ok none
    | .ok load1 =>
      if cores = 0 then .error "ZeroDivisionError: float division by zero"
      else
        let lpc := PyFloat.div load1 ⟨cores, 1⟩
        match rest with
        | p1 :: p2 :: _ =>
          .ok (some (⟨"CPU Load", pyRound load1 2, "/ " ++ intStr cores ++ " cores",
                get_status table (PyFloat.mul lpc ⟨100, 1⟩) "cpu",
                "1m: " ++ p0 ++ ", 5m: " ++ p1 ++ ", 15m: " ++ p2⟩, pyRound lpc 2))
        | _ => .ok none

/-! ### Theorems for claim C4 -/

/-- Fields of a line are safe for `_parse_memory`: recognized
`Mem:`/`Swap:` lines must carry integral total/used fields. -/

def memPartsSafe : List String → Bool
  | p0 :: p1 :: p2 :: _ =>
    if p0 = "Mem:" ∨ p0 = "Swap:" then (pythonInt p1).isOk && (pythonInt p2).isOk else true
  | _ => true

/-- A line is safe for `_parse_memory`. -/

def memLineSafe (line : String) : Bool := memPartsSafe (pySplitWs line)

/-- Fields of a line are safe for `_parse_disk`: five-field lines must
carry integral total/used fields. -/

def diskPartsSafe : List String → Bool
  | _ :: p1 :: p2 :: _ :: _ :: _ => (pythonInt p1).isOk && (pythonInt p2).isOk
  | _ => true

/-- A line is safe for `_parse_disk`. -/

def diskLineSafe (line : String) : Bool := diskPartsSafe (pySplitWs line)

/-- Tab-fields of a line are safe for `_parse_docker`: a present third
field must be empty or contain a non-whitespace character. -/

def dockerPartsSafe : List String → Bool
  | _ :: _ :: r :: _ => r.isEmpty || !(pySplitWs r).isEmpty
  | _ => true

/-- A line is safe for `_parse_docker`. -/

def dockerLineSafe (line : String) : Bool := dockerPartsSafe (pySplitChar line '\t')

/-- An input is safe for `_parse_journal`: the matched size token, if
any, must parse as a float. -/

def journalSafe (s : String) : Bool :=
  match journalMatch (pyTrim s).toList with
  | none => true
  | some p => (pythonFloat (String.mk p.1)).isOk

/-! ### Health report and issue analyzer
(`HealthReport`, `HealthChecker._analyze_issues`) -/

/-- `HealthReport`: the complete health report dataclass (the timestamp
is an abstract tick). -/

structure HealthReport where
  server_name : String
  hostname : String
  timestamp : Nat
  uptime : String
  os_info : String
  overall_status : String
  cpu_load : Metric
  cpu_load_per_core : PyFloat
  ram : Metric
  swap : Metric
  disks : List Metric := []
  sessions : Metric := ⟨"Sessions", 0, "", "ok", ""⟩
  docker : Option Metric := none
  journal_size : Option Metric := none
  top_cpu_processes : List ProcessInfo := []
  top_mem_processes : List ProcessInfo := []
  issues : List String := []
  recommendations : List String := []
  errors : List String := []
  deriving Repr, DecidableEq

/-- The shared shape of every `_analyze_issues` block: a critical
metric contributes one issue and one recommendation, a warning metric
one issue, anything else nothing. -/

def issuePat (m : Metric) (critIssue critRec warnIssue : String) :
    List String × List String :=
  if m.status = "critical" then ([critIssue], [critRec])
  else if m.status = "warning" then ([warnIssue], [])
  else ([], [])

/-- The CPU block of `_analyze_issues`. -/

def cpuIssues (m : Metric) : List String × List String :=
  issuePat m ("🔴 Критическая загрузка CPU: " ++ pyStr m.value)
    "Найти и оптимизировать тяжёлые процессы"
    ("🟡 Повышенная загрузка CPU: " ++ pyStr m.value)

/-- The RAM block of `_analyze_issues`. -/

def ramIssues (m : Metric) : List String × List String :=
  issuePat m ("🔴 Критическое использование RAM: " ++ pyStr m.value ++ "%")
    "Проверить утечки памяти, увеличить swap или RAM"
    ("🟡 Высокое использование RAM: " ++ pyStr m.value ++ "%")

/-- The swap block of `_analyze_issues`. -/

def swapIssues (m : Metric) : List String × List String :=
  issuePat m ("🔴 Активное использование Swap: " ++ pyStr m.value ++ "%")
    "Срочно освободить RAM или увеличить память"
    ("🟡 Swap используется: " ++ pyStr m.value ++ "%")

/-- One disk's block of `_analyze_issues`. -/

def diskIssues (m : Metric) : List String × List String :=
  issuePat m ("🔴 Диск " ++ m.name ++ " заполнен: " ++ pyStr m.value ++ "%")
    ("Очистить " ++ m.name ++ ": логи, кэш, старые файлы")
    ("🟡 Диск " ++ m.name ++ " заполняется: " ++ pyStr m.value ++ "%")

/-- The disk loop of `_analyze_issues`: per-disk contributions in
report order. -/

def diskIssuesAll (disks : List Metric) : List String × List String :=
  ((disks.map (fun d => (diskIssues d).1)).flatten,
   (disks.map (fun d => (diskIssues d).2)).flatten)

/-- The sessions block of `_analyze_issues`. -/

def sessionIssues (m : Metric) : List String × List String :=
  issuePat m ("🔴 Слишком много сессий: " ++ intStr (pyFloatToInt m.value))
    "Проверить подозрительные подключения, возможна атака"
    ("🟡 Много активных сессий: " ++ intStr (pyFloatToInt m.value))

/-- The docker block of `_analyze_issues`. -/

def dockerIssues (m : Metric) : List String × List String :=
  issuePat m ("🔴 Docker занимает много места: " ++ pyStr m.value ++ "GB")
    "Очистить Docker: docker system prune -a"
    ("🟡 Docker: " ++ pyStr m.value ++ "GB (" ++ m.details ++ ")")

/-- The journal block of `_analyze_issues`. -/

def journalIssues (m : Metric) : List String × List String :=
  issuePat m ("🔴 Журналы занимают много места: " ++ pyStr m.value ++ "MB")
    "Очистить журналы: journalctl --vacuum-size=200M"
    ("🟡 Журналы: " ++ pyStr m.value ++ "MB")

/-- The guard `if report.docker and ...` / `if report.journal_size and ...`:
an absent optional metric contributes nothing. -/

def optIssues (f : Metric → List String × List String) : Option Metric → List String × List String
  | some m => f m
  | none => ([], [])

/-- The `statuses` list `_analyze_issues` builds for the overall status,
in its construction order. -/

def statusList (r : HealthReport) : List String :=
  [r.cpu_load.status, r.ram.status, r.swap.status, r.sessions.status]
  ++ (match r.docker with | some d => [d.status] | none => [])
  ++ (match r.journal_size with | some j => [j.status] | none => [])
  ++ r.disks.map (fun d => d.status)

/-- The overall-status computation at the end of `_analyze_issues`
(Python `"critical" in statuses` is `List.contains`). -/

def overallFromStatuses (statuses : List String) : String :=
  if statuses.contains "critical" then "critical"
  else if statuses.contains "warning" then "warning"
  else if statuses.contains "error" then "error"
  else "ok"

/-- `HealthChecker._analyze_issues`: append the issue/recommendation
strings block by block (CPU, RAM, swap, disks, sessions, docker,
journal) and set the overall status from the status list. -/

def analyze_issues (r : HealthReport) : HealthReport :=
  let ci := cpuIssues r.cpu_load
  let ri := ramIssues r.ram
  let si := swapIssues r.swap
  let di := diskIssuesAll r.disks
  let sei := sessionIssues r.sessions
  let doi := optIssues dockerIssues r.docker
  let ji := optIssues journalIssues r.journal_size
  { r with
    issues := r.issues ++ ci.1 ++ ri.1 ++ si.1 ++ di.1 ++ sei.1 ++ doi.1 ++ ji.1,
    recommendations :=
      r.recommendations ++ ci.2 ++ ri.2 ++ si.2 ++ di.2 ++ sei.2 ++ doi.2 ++ ji.2,
    overall_status := overallFromStatuses (statusList r) }

/-- Definition following the spec's words: the overall status is chosen
from the set of metric statuses by the precedence
critical > warning > error > ok, membership-based. -/

def specOverallStatus (statuses : List String) : String :=
  if "critical" ∈ statuses then "critical"
  else if "warning" ∈ statuses then "warning"
  else if "error" ∈ statuses then "error"
  else "ok"

/-- A status-only metric for concrete analyzer inputs. -/

def testMetric (status : String) : Metric := ⟨"M", 0, "", status, ""⟩

/-- A concrete report with the given statuses. -/

def testReport (cpu ram swap sess : String) (disks : List String) : HealthReport :=
  { server_name := "s", hostname := "h", timestamp := 0, uptime := "up", os_info := "os",
    overall_status := "error", cpu_load := testMetric cpu, cpu_load_per_core := 0,
    ram := testMetric ram, swap := testMetric swap, sessions := testMetric sess,
    disks := disks.map testMetric }

/-- Number of warning-or-critical statuses. -/

def countWC (l : List String) : Nat :=
  (l.filter (fun s => s == "critical" || s == "warning")).length

/-- Number of critical statuses. -/

def countC (l : List String) : Nat :=
  (l.filter (fun s => s == "critical")).length

/-- The statuses `_analyze_issues` scans, in its fixed evaluation order
(CPU, RAM, swap, disks in report order, sessions, docker, journal). -/

def scanStatuses (r : HealthReport) : List String :=
  [r.cpu_load.status, r.ram.status, r.swap.status]
  ++ r.disks.map (fun d => d.status)
  ++ [r.sessions.status]
  ++ (match r.docker with | some d => [d.status] | none => [])
  ++ (match r.journal_size with | some j => [j.status] | none => [])

/-! ### Execution transport (src/core/ssh_manager.py `SSHManager`) -/

/-- `SSHResult`: result of one command execution. -/

structure SSHResult where
  success : Bool
  stdout : String
  stderr : String
  exit_code : Int
  error : Option String := none
  deriving Repr, DecidableEq

/-- The ways one `SSHManager.execute` call can go, mirroring the
`try/except` arms of the source: normal completion (with the optional
exit status and captured streams of `asyncssh`), `asyncio.TimeoutError`,
`asyncssh.Error`, or any other exception. -/

inductive ExecOutcome where
  | completed (exit_status : Option Int) (out err : Option String)
  | timeout
  | sshError (msg : String)
  | unexpected (msg : String)
  deriving Repr, DecidableEq

/-- `SSHManager.execute` as a function of the connection outcome:
completion maps `exit_status == 0` to success and `None` streams/status
to defaults (Python `x or 0` / `x or ""`); each exception arm returns
`success=False`, `exit_code=-1` and a labelled error message
(`timeoutSecs` is `self.timeout`). -/

def execute (timeoutSecs : Int) (o : ExecOutcome) : SSHResult :=
  match o with
  | .completed es out err =>
    { success := es == some 0
      stdout := out.getD ""
      stderr := err.getD ""
      exit_code := es.getD 0 }
  | .timeout =>
    { success := false, stdout := "", stderr := "", exit_code := -1
      error := some ("Connection timeout (" ++ intStr timeoutSecs ++ "s)") }
  | .sshError m =>
    { success := false, stdout := "", stderr := "", exit_code := -1
      error := some ("SSH error: " ++ m) }
  | .unexpected m =>
    { success := false, stdout := "", stderr := "", exit_code := -1
      error := some ("Unexpected error: " ++ m) }

/-- `SSHManager.execute_multiple`: run the commands one after another,
keyed by command string (the outcome oracle `env` gives each command's
behaviour). -/

def execute_multiple (env : String → ExecOutcome) (timeoutSecs : Int)
    (commands : List String) : List (String × SSHResult) :=
  commands.map (fun cmd => (cmd, execute timeoutSecs (env cmd)))

/-! ### Metric collection (`HealthChecker.collect`) -/

/-- The `COMMANDS` catalog (keys of the per-command result map). -/

def cmd_hostname : String := "hostname"

/-- `COMMANDS["uptime"]`. -/

def cmd_uptime : String := "uptime -p 2>/dev/null || uptime"

/-- `COMMANDS["os_info"]`. -/

def cmd_os_info : String := "cat /etc/os-release | grep -E '^(NAME|VERSION)=' | head -2"

/-- `COMMANDS["cpu_cores"]`. -/

def cmd_cpu_cores : String := "nproc"

/-- `COMMANDS["load_avg"]`. -/

def cmd_load_avg : String := "cat /proc/loadavg"

/-- `COMMANDS["memory"]`. -/

def cmd_memory : String := "free -b | grep -E '^(Mem|Swap):'"

/-- `COMMANDS["disk"]`. -/

def cmd_disk : String := "df -B1 --output=target,size,used,avail,pcent | grep -E '^/'"

/-- `COMMANDS["top_cpu"]`. -/

def cmd_top_cpu : String := "ps aux --sort=-%cpu | head -6 | tail -5"

/-- `COMMANDS["top_mem"]`. -/

def cmd_top_mem : String := "ps aux --sort=-%mem | head -6 | tail -5"

/-- `COMMANDS["sessions"]`. -/

def cmd_sessions : String := "who | wc -l"

/-- `COMMANDS["docker"]`. -/

def cmd_docker : String :=
  "docker system df --format '\x7b\x7b.Type\x7d\x7d\t\x7b\x7b.Size\x7d\x7d\t\x7b\x7b.Reclaimable\x7d\x7d' 2>/dev/null || echo 'NO_DOCKER'"

/-- `COMMANDS["journal"]`. -/

def cmd_journal : String :=
  "journalctl --disk-usage 2>/dev/null | grep -oP '[\\d.]+[KMGT]?' || echo '0'"

/-- The repeated guard `r = results.get(cmd); if r and r.success:` of
`collect`. -/

def getOk (results : String → Option SSHResult) (cmd : String) : Option SSHResult :=
  match results cmd with
  | some r => if r.success then some r else none
  | none => none

/-- `HealthChecker.collect` as a function of the per-command result map
(`execute_multiple`'s output), the server name, the threshold table and
the timestamp tick: initialize the report with error/ok defaults, parse
each command's output when it succeeded, then run the analyzer.
Parser exceptions propagate. -/

def collect (results : String → Option SSHResult) (server_name : String)
    (table : List (String × Threshold)) (timestamp : Nat) : Except String HealthReport := do
  let rep : HealthReport :=
    { server_name := server_name, hostname := "unknown", timestamp := timestamp,
      uptime := "unknown", os_info := "unknown", overall_status := "error",
      cpu_load := { name := "CPU Load", value := 0, unit := "", status := "error" },
      cpu_load_per_core := 0,
      ram := { name := "RAM", value := 0, unit := "%", status := "error" },
      swap := { name := "Swap", value := 0, unit := "%", status := "ok" } }
  let rep := match getOk results cmd_hostname with
    | some r => { rep with hostname := pyTrim r.stdout }
    | none => rep
  let rep := match getOk results cmd_uptime with
    | some r => { rep with uptime := pyTrim r.stdout }
    | none => rep
  let rep := match getOk results cmd_os_info with
    | some r =>
      let lines := pySplitChar (pyTrim r.stdout) '\n'
      let os_parts := lines.filterMap (fun line =>
        if strContainsChar line '=' then
          match pySplitChar line '=' with
          | _ :: second :: _ => some (pyStripChar second '"')
          | _ => none
        else none)
      { rep with os_info := String.intercalate " " os_parts }
    | none => rep
  let cores : Int := match getOk results cmd_cpu_cores with
    | some r =>
      match pythonInt (pyTrim r.stdout) with
      | .ok n => n
      | .error _ => 1
    | none => 1
  let rep ← match getOk results cmd_load_avg with
    | some r =>
      (parse_load table cores r.stdout).map (fun o =>
        match o with
        | some (m, lpc) => { rep with cpu_load := m, cpu_load_per_core := lpc }
        | none => rep)
    | none => .ok rep
  let rep ← match getOk results cmd_memory with
    | some r => (parse_memory table r.stdout).map (fun p => { rep with ram := p.1, swap := p.2 })
    | none => .ok rep
  let rep ← match getOk results cmd_disk with
    | some r => (parse_disk table r.stdout).map (fun ds => { rep with disks := ds })
    | none => .ok rep
  let rep := match getOk results cmd_top_cpu with
    | some r => { rep with top_cpu_processes := parse_processes r.stdout }
    | none => rep
  let rep := match getOk results cmd_top_mem with
    | some r => { rep with top_mem_processes := parse_processes r.stdout }
    | none => rep
  let rep := match getOk results cmd_sessions with
    | some r =>
      match parse_sessions r.stdout with
      | some m => { rep with sessions := m }
      | none => rep
    | none => rep
  let rep ← match getOk results cmd_docker with
    | some r =>
      if strContains r.stdout "NO_DOCKER" then .ok rep
      else (parse_docker r.stdout).map (fun o => { rep with docker := o })
    | none => .ok rep
  let rep ← match getOk results cmd_journal with
    | some r => (parse_journal r.stdout).map (fun o => { rep with journal_size := o })
    | none => .ok rep
  return analyze_issues rep

/-- Cross-multiplied comparison agrees with the rational ordering for
positive denominators. -/
theorem PyFloat.le_iff (a b : PyFloat) (ha : 0 < a.den) (hb : 0 < b.den) :
    (a.le b = true) ↔ a.toRat ≤ b.toRat := by
  have ha' : (0 : Rat) < (a.den : Rat) := by exact_mod_cast ha
  have hb' : (0 : Rat) < (b.den : Rat) := by exact_mod_cast hb
  simp only [PyFloat.le, PyFloat.toRat, decide_eq_true_eq]
  rw [div_le_div_iff₀ ha' hb']
  constructor <;> intro h <;> exact_mod_cast h

/-! ### Theorems for claim C2 -/

/-- C2: the threshold classifier returns critical when `v ≥ critical`,
else warning when `v ≥ warning`, else ok; a kind absent from the table
uses the default pair {warning 70, critical 90}; hence for any pair
(w, c) with c ≥ w: v < w gives ok, w ≤ v < c gives warning, v ≥ c gives
critical. -/

theorem C2_threshold_classifier :
    (∀ (table : List (String × Threshold)) (k : String) (v : PyFloat),
        0 < v.den →
        table.find? (fun p => p.1 == k) = none →
        get_status table v k =
          if 90 ≤ v.toRat then "critical" else if 70 ≤ v.toRat then "warning" else "ok")
    ∧ (∀ (w c v : PyFloat) (k : String),
        0 < w.den → 0 < c.den → 0 < v.den → w.toRat ≤ c.toRat →
        (v.toRat < w.toRat → get_status [(k, ⟨w, c⟩)] v k = "ok")
        ∧ (w.toRat ≤ v.toRat → v.toRat < c.toRat → get_status [(k, ⟨w, c⟩)] v k = "warning")
        ∧ (c.toRat ≤ v.toRat → get_status [(k, ⟨w, c⟩)] v k = "critical")) := by
  constructor
  · intro table k v hv hnone
    have e90 : ((90 : PyFloat)) = ⟨90, 1⟩ := rfl
    have e70 : ((70 : PyFloat)) = ⟨70, 1⟩ := rfl
    have h90 : ((90 : PyFloat).le v = true) ↔ (90 : Rat) ≤ v.toRat := by
      rw [e90, PyFloat.le_iff _ _ (by norm_num) hv]
      norm_num [PyFloat.toRat]
    have h70 : ((70 : PyFloat).le v = true) ↔ (70 : Rat) ≤ v.toRat := by
      rw [e70, PyFloat.le_iff _ _ (by norm_num) hv]
      norm_num [PyFloat.toRat]
    simp only [get_status, thresholds_get, hnone]
    by_cases hc : (90 : Rat) ≤ v.toRat
    · simp [h90.mpr hc, hc]
    · have h90f : (90 : PyFloat).le v = false := by
        rw [← Bool.not_eq_true]
        exact fun h => hc (h90.mp h)
      by_cases hw : (70 : Rat) ≤ v.toRat
      · simp [h90f, h70.mpr hw, hc, hw]
      · have h70f : (70 : PyFloat).le v = false := by
          rw [← Bool.not_eq_true]
          exact fun h => hw (h70.mp h)
        simp [h90f, h70f, hc, hw]
  · intro w c v k hw hc hv hwc
    have hfind : ([(k, (⟨w, c⟩ : Threshold))].find? (fun p => p.1 == k)) =
        some (k, ⟨w, c⟩) := by simp
    have hcle : (c.le v = true) ↔ c.toRat ≤ v.toRat := PyFloat.le_iff c v hc hv
    have hwle : (w.le v = true) ↔ w.toRat ≤ v.toRat := PyFloat.le_iff w v hw hv
    refine ⟨?_, ?_, ?_⟩
    · intro hlt
      have h1 : ¬ (c.le v = true) := fun h => absurd (hcle.mp h)
        (not_le.mpr (lt_of_lt_of_le hlt hwc))
      have h2 : ¬ (w.le v = true) := fun h => absurd (hwle.mp h) (not_le.mpr hlt)
      simp [get_status, thresholds_get, hfind, h1, h2]
    · intro h1 h2
      have hf : ¬ (c.le v = true) := fun h => absurd (hcle.mp h) (not_le.mpr h2)
      simp [get_status, thresholds_get, hfind, hf, hwle.mpr h1]
    · intro h1
      simp [get_status, thresholds_get, hfind, hcle.mpr h1]

/-- Witness for C2 at concrete inputs: kind "x" absent from the empty
table classifies 95 with the default pair, and the pair (70, 85) sends
50 to ok, 75 to warning and 90 to critical. -/

theorem C2_threshold_classifier_witness :
    get_status [] (⟨95, 1⟩ : PyFloat) "x" = "critical"
    ∧ get_status [("ram", ⟨⟨70, 1⟩, ⟨85, 1⟩⟩)] (⟨50, 1⟩ : PyFloat) "ram" = "ok"
    ∧ get_status [("ram", ⟨⟨70, 1⟩, ⟨85, 1⟩⟩)] (⟨75, 1⟩ : PyFloat) "ram" = "warning"
    ∧ get_status [("ram", ⟨⟨70, 1⟩, ⟨85, 1⟩⟩)] (⟨90, 1⟩ : PyFloat) "ram" = "critical" := by
  refine ⟨?_, ?_, ?_, ?_⟩
  · have h := (C2_threshold_classifier.1) [] "x" ⟨95, 1⟩ (by norm_num) (by simp)
    rw [h]
    norm_num [PyFloat.toRat]
  · exact ((C2_threshold_classifier.2) ⟨70, 1⟩ ⟨85, 1⟩ ⟨50, 1⟩ "ram" (by norm_num) (by norm_num)
      (by norm_num) (by norm_num [PyFloat.toRat])).1 (by norm_num [PyFloat.toRat])
  · exact ((C2_threshold_classifier.2) ⟨70, 1⟩ ⟨85, 1⟩ ⟨75, 1⟩ "ram" (by norm_num) (by norm_num)
      (by norm_num) (by norm_num [PyFloat.toRat])).2.1 (by norm_num [PyFloat.toRat])
      (by norm_num [PyFloat.toRat])
  · exact ((C2_threshold_classifier.2) ⟨70, 1⟩ ⟨85, 1⟩ ⟨90, 1⟩ "ram" (by norm_num) (by norm_num)
      (by norm_num) (by norm_num [PyFloat.toRat])).2.2 (by norm_num [PyFloat.toRat])

/-! ### Theorems for claim C6 -/

/-- C6 counterexample: the claim says every K/M/G/T-suffixed size token,
with or without a trailing "B", is converted to the target unit, so "2G"
would normalize to 2.0 GB and "1.5TB" to 1536 GB; the code handles only
GB/MB/KB/B suffixes, so both fall through to a failing bare `float`
call and normalize to 0. -/

theorem C6_size_normalizer_counterexample :
    (parse_size_to_gb "2G").toRat = 0 ∧ (parse_size_to_gb "1.5TB").toRat = 0
    ∧ (0 : Rat) ≠ 2 := by
  have h1 : parse_size_to_gb "2G" = ⟨0, 1⟩ := by decide
  have h2 : parse_size_to_gb "1.5TB" = ⟨0, 1⟩ := by decide
  rw [h1, h2]
  norm_num [PyFloat.toRat]

/-- C6 amended: the normalizer maps GB/MB/KB/B-suffixed tokens
(case-insensitive) to GB and passes bare numeric tokens through; tokens
with a K/M/G/T suffix lacking the trailing "B", T-suffixed tokens, and
all other unparseable tokens normalize to 0 rather than failing; in
particular "2GB" gives 2.0 and "500MB" gives 500/1024. -/

theorem C6_size_normalizer_amended :
    (∀ (s : String) (v : PyFloat),
        strContains (pyUpper (pyTrim s)) "GB" = true →
        pythonFloat (pyReplaceDel (pyUpper (pyTrim s)) "GB") = .ok v →
        parse_size_to_gb s = v)
    ∧ (∀ (s : String) (v : PyFloat),
        strContains (pyUpper (pyTrim s)) "GB" = false →
        strContains (pyUpper (pyTrim s)) "MB" = true →
        pythonFloat (pyReplaceDel (pyUpper (pyTrim s)) "MB") = .ok v →
        parse_size_to_gb s = v.div (PyFloat.ofN 1024))
    ∧ (∀ (s : String) (v : PyFloat),
        strContains (pyUpper (pyTrim s)) "GB" = false →
        strContains (pyUpper (pyTrim s)) "MB" = false →
        strContains (pyUpper (pyTrim s)) "KB" = false →
        strContainsChar (pyUpper (pyTrim s)) 'B' = false →
        pythonFloat (pyUpper (pyTrim s)) = .ok v →
        parse_size_to_gb s = v)
    ∧ (parse_size_to_gb "2GB").toRat = 2
    ∧ (parse_size_to_gb "500MB").toRat = 500 / 1024
    ∧ (parse_size_to_gb "2gb").toRat = 2
    ∧ (parse_size_to_gb "7B").toRat = 7 / (1024 * 1024 * 1024)
    ∧ (parse_size_to_gb "2G").toRat = 0
    ∧ (parse_size_to_gb "1.5TB").toRat = 0
    ∧ (parse_size_to_gb "garbage").toRat = 0 := by
  refine ⟨?_, ?_, ?_, ?_, ?_, ?_, ?_, ?_, ?_, ?_⟩
  · intro s v hgb hfl
    simp [parse_size_to_gb, hgb, hfl]
  · intro s v hgb hmb hfl
    simp [parse_size_to_gb, hgb, hmb, hfl, Except.map]
  · intro s v hgb hmb hkb hb hfl
    simp [parse_size_to_gb, hgb, hmb, hkb, hb, hfl]
  · have h : parse_size_to_gb "2GB" = ⟨2, 1⟩ := by decide
    rw [h]; norm_num [PyFloat.toRat]
  · have h : parse_size_to_gb "500MB" = ⟨500, 1024⟩ := by decide
    rw [h]; norm_num [PyFloat.toRat]
  · have h : parse_size_to_gb "2gb" = ⟨2, 1⟩ := by decide
    rw [h]; norm_num [PyFloat.toRat]
  · have h : parse_size_to_gb "7B" = ⟨7, 1073741824⟩ := by decide
    rw [h]; norm_num [PyFloat.toRat]
  · have h : parse_size_to_gb "2G" = ⟨0, 1⟩ := by decide
    rw [h]; norm_num [PyFloat.toRat]
  · have h : parse_size_to_gb "1.5TB" = ⟨0, 1⟩ := by decide
    rw [h]; norm_num [PyFloat.toRat]
  · have h : parse_size_to_gb "garbage" = ⟨0, 1⟩ := by decide
    rw [h]; norm_num [PyFloat.toRat]

/-- Witness for C6 amended at concrete inputs: the GB law at "3.5GB",
the MB law at "500MB", and the bare-number law at "12.5". -/

theorem C6_size_normalizer_amended_witness :
    parse_size_to_gb "3.5GB" = ⟨35, 10⟩
    ∧ parse_size_to_gb "500MB" = PyFloat.div ⟨500, 1⟩ (PyFloat.ofN 1024)
    ∧ parse_size_to_gb "12.5" = ⟨125, 10⟩ := by
  refine ⟨?_, ?_, ?_⟩
  · exact C6_size_normalizer_amended.1 "3.5GB" ⟨35, 10⟩ (by decide) (by decide)
  · exact C6_size_normalizer_amended.2.1 "500MB" ⟨500, 1⟩ (by decide) (by decide) (by decide)
  · exact C6_size_normalizer_amended.2.2.1 "12.5" ⟨125, 10⟩ (by decide) (by decide) (by decide)
      (by decide) (by decide)

/-! ### Theorems for claim C7 -/

/-- C7: the memory parser turns a `Mem:` line with total/used counts and
total > 0 into a RAM metric with value `round(used/total*100, 1)` and
status classified from the unrounded percentage ("Mem: 1000 500" gives
50.0 with status ok under the default thresholds); a `Swap:` line with
total = 0 leaves the swap sentinel (status ok, detail "No swap")
untouched, with no division failure. -/

theorem C7_memory_parsing :
    (∀ (table : List (String × Threshold)) (st : Metric × Metric) (line t u : String)
        (rest : List String) (tv uv : Int),
        pySplitWs line = "Mem:" :: t :: u :: rest →
        pythonInt t = .ok tv → pythonInt u = .ok uv → 0 < tv →
        parse_memory_line table st line =
          .ok (⟨"RAM", pyRound (PyFloat.mul (PyFloat.div ⟨uv, 1⟩ ⟨tv, 1⟩) ⟨100, 1⟩) 1, "%",
                get_status table (PyFloat.mul (PyFloat.div ⟨uv, 1⟩ ⟨tv, 1⟩) ⟨100, 1⟩) "ram",
                memDetail uv tv⟩, st.2))
    ∧ (∀ (table : List (String × Threshold)) (st : Metric × Metric) (line t u : String)
        (rest : List String) (uv : Int),
        pySplitWs line = "Swap:" :: t :: u :: rest →
        pythonInt t = .ok 0 → pythonInt u = .ok uv →
        parse_memory_line table st line = .ok st)
    ∧ parse_memory defaultThresholds "Mem: 1000 500" =
        .ok (⟨"RAM", ⟨500, 10⟩, "%", "ok", "0.0GB / 0.0GB"⟩,
             ⟨"Swap", 0, "%", "ok", "No swap"⟩)
    ∧ (⟨500, 10⟩ : PyFloat).toRat = 50
    ∧ parse_memory defaultThresholds "Swap: 0 0" =
        .ok (⟨"RAM", 0, "%", "error", "Failed to parse"⟩,
             ⟨"Swap", 0, "%", "ok", "No swap"⟩) := by
  refine ⟨?_, ?_, by decide, by norm_num [PyFloat.toRat], by decide⟩
  · intro table st line t u rest tv uv hsplit ht hu htv
    simp [parse_memory_line, hsplit, ht, hu, htv]
  · intro table st line t u rest uv hsplit ht hu
    simp [parse_memory_line, hsplit, ht, hu]

/-- Witness for C7 at a concrete line: "Mem: 4 1" produces a 25.0% RAM
metric, and "Swap: 0 7" leaves the state unchanged. -/

theorem C7_memory_parsing_witness :
    parse_memory_line defaultThresholds
      (⟨"RAM", 0, "%", "error", "Failed to parse"⟩, ⟨"Swap", 0, "%", "ok", "No swap"⟩)
      "Mem: 4 1" =
      .ok (⟨"RAM", pyRound (PyFloat.mul (PyFloat.div ⟨1, 1⟩ ⟨4, 1⟩) ⟨100, 1⟩) 1, "%",
            get_status defaultThresholds (PyFloat.mul (PyFloat.div ⟨1, 1⟩ ⟨4, 1⟩) ⟨100, 1⟩) "ram",
            memDetail 1 4⟩, ⟨"Swap", 0, "%", "ok", "No swap"⟩)
    ∧ parse_memory_line defaultThresholds
      (⟨"RAM", 0, "%", "error", "Failed to parse"⟩, ⟨"Swap", 0, "%", "ok", "No swap"⟩)
      "Swap: 0 7" =
      .ok (⟨"RAM", 0, "%", "error", "Failed to parse"⟩, ⟨"Swap", 0, "%", "ok", "No swap"⟩) := by
  constructor
  · exact C7_memory_parsing.1 defaultThresholds _ "Mem: 4 1" "4" "1" [] 4 1
      (by decide) (by decide) (by decide) (by decide)
  · exact C7_memory_parsing.2.1 defaultThresholds _ "Swap: 0 7" "0" "7" [] 7
      (by decide) (by decide) (by decide)

/-! ### Theorems for claim C9 -/

/-- If no line of the disk output aborts the parse, the loop appends, in
line order, exactly the metrics of the lines that contribute one. -/

theorem parse_disk_go_eq (table : List (String × Threshold)) (lines : List String) :
    ∀ acc : List Metric,
      (∀ l ∈ lines, (parse_disk_line table l).isOk = true) →
      parse_disk_go table acc lines = .ok (acc ++ lines.filterMap (diskLineOpt table)) := by
  induction lines with
  | nil => intro acc _; simp [parse_disk_go]
  | cons l ls ih =>
    intro acc h
    have hl := h l (by simp)
    cases hpl : parse_disk_line table l with
    | error e => rw [hpl] at hl; simp [Except.isOk, Except.toBool] at hl
    | ok o =>
      cases o with
      | none =>
        simp only [parse_disk_go, hpl, List.filterMap_cons, diskLineOpt]
        exact ih acc (fun l' hl' => h l' (by simp [hl']))
      | some m =>
        simp only [parse_disk_go, hpl, List.filterMap_cons, diskLineOpt]
        rw [ih (acc ++ [m]) (fun l' hl' => h l' (by simp [hl']))]
        simp

/-- C9 amended: the disk parser produces exactly one Metric per line
with at least five whitespace fields and a numeric percentage token,
regardless of whether the first field begins with "/" (the mountpoint
filter lives in the `df | grep '^/'` command, not in the parser); lines
with fewer than five fields or a non-numeric percentage are skipped
without aborting the rest, and — provided the total/used fields of
five-field lines are integral, since a non-integral one raises — the
resulting metrics preserve line order. -/

theorem C9_disk_parser_amended :
    (∀ (table : List (String × Threshold)) (output : String),
        (∀ l ∈ pyLines output, (parse_disk_line table l).isOk = true) →
        parse_disk table output = .ok ((pyLines output).filterMap (diskLineOpt table)))
    ∧ (∀ (table : List (String × Threshold)) (line p0 p1 p2 p3 p4 : String)
        (rest : List String) (tv uv : Int) (pv : PyFloat),
        pySplitWs line = p0 :: p1 :: p2 :: p3 :: p4 :: rest →
        pythonInt p1 = .ok tv → pythonInt p2 = .ok uv →
        pythonFloat (pyRstrip p4 '%') = .ok pv →
        parse_disk_line table line =
          .ok (some ⟨"Disk " ++ p0, pv, "%", get_status table pv "disk", memDetail uv tv⟩))
    ∧ (∀ (table : List (String × Threshold)) (line p0 p1 p2 p3 p4 : String)
        (rest : List String) (tv uv : Int) (e : String),
        pySplitWs line = p0 :: p1 :: p2 :: p3 :: p4 :: rest →
        pythonInt p1 = .ok tv → pythonInt p2 = .ok uv →
        pythonFloat (pyRstrip p4 '%') = .error e →
        parse_disk_line table line = .ok none)
    ∧ (∀ (table : List (String × Threshold)) (line : String),
        (pySplitWs line).length < 5 → parse_disk_line table line = .ok none)
    ∧ parse_disk defaultThresholds "/a 100 50 50 x%\n/b 200 100 100 50%" =
        .ok [⟨"Disk /b", ⟨50, 1⟩, "%", "ok", "0.0GB / 0.0GB"⟩] := by
  refine ⟨?_, ?_, ?_, ?_, by decide⟩
  · intro table output h
    exact parse_disk_go_eq table (pyLines output) [] h
  · intro table line p0 p1 p2 p3 p4 rest tv uv pv hsplit ht hu hf
    simp [parse_disk_line, hsplit, ht, hu, hf]
  · intro table line p0 p1 p2 p3 p4 rest tv uv e hsplit ht hu hf
    simp [parse_disk_line, hsplit, ht, hu, hf]
  · intro table line hlen
    rcases hl : pySplitWs line with _ | ⟨a, _ | ⟨b, _ | ⟨c, _ | ⟨d, _ | ⟨e5, rest⟩⟩⟩⟩⟩
    · simp [parse_disk_line, hl]
    · simp [parse_disk_line, hl]
    · simp [parse_disk_line, hl]
    · simp [parse_disk_line, hl]
    · simp [parse_disk_line, hl]
    · exfalso
      rw [hl] at hlen
      simp at hlen
      omega

/-- C9 counterexample: the claim restricts metrics to lines whose first
field begins with "/", but the parser never checks that: the line
"tmpfs 100 50 50 50%" (first field "tmpfs", which does not start with
"/") still produces one metric. -/

theorem C9_disk_parser_counterexample :
    parse_disk defaultThresholds "tmpfs 100 50 50 50%" =
      .ok [⟨"Disk tmpfs", ⟨50, 1⟩, "%", "ok", "0.0GB / 0.0GB"⟩]
    ∧ pyStartsWith "tmpfs" '/' = false := by
  exact ⟨by decide, by decide⟩

/-- Witness for C9 amended on a concrete two-line output (second line
too short, so exactly the first line contributes, in order). -/

theorem C9_disk_parser_amended_witness :
    parse_disk defaultThresholds "/a 10 5 5 50%\nshort line" =
      .ok ((pyLines "/a 10 5 5 50%\nshort line").filterMap (diskLineOpt defaultThresholds)) := by
  exact C9_disk_parser_amended.1 defaultThresholds "/a 10 5 5 50%\nshort line" (by decide)

/-! ### Theorems for claim C10 -/

/-- C10 counterexample: the claim says both parsers return a Metric for
every input string, but each has an input on which it raises an
uncaught exception instead: the journal parser calls `float(".")` on
the input "." (the regex matches a digit-free token), and the docker
parser indexes `" ".split()[0]` on a line whose third tab-field is
non-empty whitespace. -/

theorem C10_optional_parser_counterexample :
    (parse_journal ".").isOk = false
    ∧ (parse_docker "a\tb\t \tc").isOk = false := by
  exact ⟨by decide, by decide⟩

/-- C10 amended: on every input on which they do not raise (journal:
the leftmost digit-or-dot run, if any, must contain a digit; docker: no
line may have a non-empty all-whitespace third tab-field), both parsers
return `some` Metric, never the `None` their `Optional[Metric]`
signatures suggest; input with no parseable size token yields value 0
and status ok, i.e. is reported as healthy. -/

theorem C10_optional_parser_amended :
    (∀ (s : String) (r : Option Metric), parse_docker s = .ok r → r.isSome = true)
    ∧ (∀ (s : String) (r : Option Metric), parse_journal s = .ok r → r.isSome = true)
    ∧ (∀ s : String, journalMatch (pyTrim s).toList = none →
        parse_journal s = .ok (some ⟨"Journal", ⟨0, 1⟩, "MB", "ok", "Systemd logs: 0MB"⟩))
    ∧ parse_docker "garbage" =
        .ok (some ⟨"Docker", ⟨0, 10⟩, "GB", "ok", "Reclaimable: 0.0GB"⟩)
    ∧ (⟨0, 10⟩ : PyFloat).toRat = 0 := by
  refine ⟨?_, ?_, ?_, by decide, by norm_num [PyFloat.toRat]⟩
  · intro s r h
    cases r with
    | some m => rfl
    | none =>
      exfalso
      simp only [parse_docker] at h
      cases hg : parse_docker_go (⟨0, 1⟩, ⟨0, 1⟩) (pyLines s) with
      | error e =>
        rw [hg] at h
        simp at h
      | ok p =>
        obtain ⟨t, rc⟩ := p
        rw [hg] at h
        simp at h
  · intro s r h
    cases r with
    | some m => rfl
    | none =>
      exfalso
      simp only [parse_journal] at h
      cases hm : journalMatch (pyTrim s).toList with
      | none =>
        rw [hm] at h
        simp at h
      | some p =>
        obtain ⟨g1, unit⟩ := p
        cases hf : pythonFloat (String.mk g1) with
        | error e =>
          rw [hm] at h
          simp [hf] at h
        | ok v =>
          rw [hm] at h
          simp [hf] at h
  · intro s h
    simp only [parse_journal]
    rw [h]
    decide

/-- Witness for C10 amended: the journal parser on "abc" (no size
token) returns the healthy zero metric, and the docker parser on a
realistic `docker system df` line returns `some` Metric. -/

theorem C10_optional_parser_amended_witness :
    parse_journal "abc" = .ok (some ⟨"Journal", ⟨0, 1⟩, "MB", "ok", "Systemd logs: 0MB"⟩)
    ∧ (Option.isSome
        (some (⟨"Docker", ⟨29, 10⟩, "GB", "ok", "Reclaimable: 2.4GB"⟩ : Metric))) = true := by
  constructor
  · exact C10_optional_parser_amended.2.2.1 "abc" (by decide)
  · exact C10_optional_parser_amended.1 "Images\t2.946GB\t2.37GB (80%)"
      (some ⟨"Docker", ⟨29, 10⟩, "GB", "ok", "Reclaimable: 2.4GB"⟩) (by decide)

theorem parse_memory_line_isOk (table : List (String × Threshold)) (st : Metric × Metric)
    (line : String) (h : memLineSafe line = true) :
    (parse_memory_line table st line).isOk = true := by
  rw [memLineSafe] at h
  rcases hl : pySplitWs line with _ | ⟨p0, _ | ⟨p1, _ | ⟨p2, rest⟩⟩⟩
  · simp [parse_memory_line, hl, Except.isOk, Except.toBool]
  · simp [parse_memory_line, hl, Except.isOk, Except.toBool]
  · simp [parse_memory_line, hl, Except.isOk, Except.toBool]
  · rw [hl] at h
    simp only [memPartsSafe] at h
    by_cases h0 : p0 = "Mem:" ∨ p0 = "Swap:"
    · rw [if_pos h0, Bool.and_eq_true] at h
      obtain ⟨h1, h2⟩ := h
      cases ht : pythonInt p1 with
      | error e => rw [ht] at h1; simp [Except.isOk, Except.toBool] at h1
      | ok tv =>
        cases hu : pythonInt p2 with
        | error e => rw [hu] at h2; simp [Except.isOk, Except.toBool] at h2
        | ok uv =>
          rcases h0 with h0 | h0 <;> subst h0
          · by_cases htv : tv > 0 <;>
              simp [parse_memory_line, hl, ht, hu, htv, Except.isOk, Except.toBool]
          · by_cases htv : tv > 0 <;>
              simp [parse_memory_line, hl, ht, hu, htv, Except.isOk, Except.toBool]
    · have hm : ¬ (p0 = "Mem:") := fun hx => h0 (Or.inl hx)
      have hs : ¬ (p0 = "Swap:") := fun hx => h0 (Or.inr hx)
      simp [parse_memory_line, hl, hm, hs, Except.isOk, Except.toBool]

theorem parse_memory_go_isOk (table : List (String × Threshold)) (lines : List String) :
    ∀ st : Metric × Metric, (∀ l ∈ lines, memLineSafe l = true) →
      (parse_memory_go table st lines).isOk = true := by
  induction lines with
  | nil => intro st _; simp [parse_memory_go, Except.isOk, Except.toBool]
  | cons l ls ih =>
    intro st h
    have hl := parse_memory_line_isOk table st l (h l (by simp))
    cases hpl : parse_memory_line table st l with
    | error e => rw [hpl] at hl; simp [Except.isOk, Except.toBool] at hl
    | ok st2 =>
      simp only [parse_memory_go, hpl]
      exact ih st2 (fun l' hl' => h l' (by simp [hl']))

theorem parse_disk_line_isOk (table : List (String × Threshold)) (line : String)
    (h : diskLineSafe line = true) : (parse_disk_line table line).isOk = true := by
  rw [diskLineSafe] at h
  rcases hl : pySplitWs line with _ | ⟨a, _ | ⟨b, _ | ⟨c, _ | ⟨d, _ | ⟨e5, rest⟩⟩⟩⟩⟩
  · simp [parse_disk_line, hl, Except.isOk, Except.toBool]
  · simp [parse_disk_line, hl, Except.isOk, Except.toBool]
  · simp [parse_disk_line, hl, Except.isOk, Except.toBool]
  · simp [parse_disk_line, hl, Except.isOk, Except.toBool]
  · simp [parse_disk_line, hl, Except.isOk, Except.toBool]
  · rw [hl] at h
    simp only [diskPartsSafe, Bool.and_eq_true] at h
    obtain ⟨h1, h2⟩ := h
    cases ht : pythonInt b with
    | error e => rw [ht] at h1; simp [Except.isOk, Except.toBool] at h1
    | ok tv =>
      cases hu : pythonInt c with
      | error e => rw [hu] at h2; simp [Except.isOk, Except.toBool] at h2
      | ok uv =>
        cases hf : pythonFloat (pyRstrip e5 '%') with
        | error e => simp [parse_disk_line, hl, ht, hu, hf, Except.isOk, Except.toBool]
        | ok pv => simp [parse_disk_line, hl, ht, hu, hf, Except.isOk, Except.toBool]

theorem parse_disk_go_isOk (table : List (String × Threshold)) (lines : List String) :
    ∀ acc : List Metric, (∀ l ∈ lines, diskLineSafe l = true) →
      (parse_disk_go table acc lines).isOk = true := by
  induction lines with
  | nil => intro acc _; simp [parse_disk_go, Except.isOk, Except.toBool]
  | cons l ls ih =>
    intro acc h
    have hl := parse_disk_line_isOk table l (h l (by simp))
    cases hpl : parse_disk_line table l with
    | error e => rw [hpl] at hl; simp [Except.isOk, Except.toBool] at hl
    | ok o =>
      cases o with
      | none =>
        simp only [parse_disk_go, hpl]
        exact ih acc (fun l' hl' => h l' (by simp [hl']))
      | some m =>
        simp only [parse_disk_go, hpl]
        exact ih (acc ++ [m]) (fun l' hl' => h l' (by simp [hl']))

theorem parse_docker_line_isOk (acc : PyFloat × PyFloat) (line : String)
    (h : dockerLineSafe line = true) : ∃ acc2, parse_docker_line acc line = .ok acc2 := by
  rw [dockerLineSafe] at h
  rcases hl : pySplitChar line '\t' with _ | ⟨a, _ | ⟨b, _ | ⟨r, rest⟩⟩⟩
  · refine ⟨acc, ?_⟩
    simp [parse_docker_line, hl]
  · refine ⟨acc, ?_⟩
    simp [parse_docker_line, hl]
  · refine ⟨(PyFloat.add acc.1 (parse_size_to_gb b), PyFloat.add acc.2 (parse_size_to_gb "0")), ?_⟩
    simp only [parse_docker_line, hl]
    rfl
  · rw [hl] at h
    simp only [dockerPartsSafe] at h
    by_cases hre : r.isEmpty = true
    · refine ⟨(PyFloat.add acc.1 (parse_size_to_gb b), PyFloat.add acc.2 (parse_size_to_gb "0")),
        ?_⟩
      simp only [parse_docker_line, hl, hre, if_true]
    · have hre' : r.isEmpty = false := by
        rwa [← Bool.not_eq_true]
      rw [hre', Bool.false_or, Bool.not_eq_eq_eq_not, Bool.not_true] at h
      cases hsw : pySplitWs r with
      | nil => rw [hsw] at h; simp at h
      | cons r0 rtail =>
        refine ⟨(PyFloat.add acc.1 (parse_size_to_gb b), PyFloat.add acc.2 (parse_size_to_gb r0)),
          ?_⟩
        simp only [parse_docker_line, hl, hre', hsw, Bool.false_eq_true, if_false]

theorem parse_docker_go_isOk (lines : List String) :
    ∀ acc : PyFloat × PyFloat, (∀ l ∈ lines, dockerLineSafe l = true) →
      (parse_docker_go acc lines).isOk = true := by
  induction lines with
  | nil => intro acc _; simp [parse_docker_go, Except.isOk, Except.toBool]
  | cons l ls ih =>
    intro acc h
    obtain ⟨acc2, hacc2⟩ := parse_docker_line_isOk acc l (h l (by simp))
    simp only [parse_docker_go, hacc2]
    exact ih acc2 (fun l' hl' => h l' (by simp [hl']))

/-- C4 counterexample: the claim says every metric parser returns a
sentinel on malformed input and never raises, but the memory parser
raises `ValueError` on the line "Mem: x 1" (non-integer total), and the
disk parser raises on "/a x 1 1 5%". -/

theorem C4_parser_resilience_counterexample :
    (parse_memory defaultThresholds "Mem: x 1").isOk = false
    ∧ (parse_disk defaultThresholds "/a x 1 1 5%").isOk = false := by
  exact ⟨by decide, by decide⟩

/-- C4 amended: the process, session-count and size-normalizer parsers
never raise, and the memory, disk, docker, journal and load parsers
return without raising on every input outside their specific raising
conditions — memory/disk: a recognized line whose total/used count
fields are not integers; docker: a line whose third tab-field is
non-empty whitespace; journal: a regex-matched size token on which
`float()` fails (possible even for digit-bearing tokens such as
"1.2.3"); load: a zero core count reached with a float-parsable load
token (an unparseable token is caught before the division, so it does
not raise even with zero cores) — and empty or unrecognized input
yields the documented sentinel/default results. -/

theorem C4_parser_resilience_amended :
    (∀ (table : List (String × Threshold)) (s : String),
        (∀ l ∈ pyLines s, memLineSafe l = true) → (parse_memory table s).isOk = true)
    ∧ (∀ (table : List (String × Threshold)) (s : String),
        (∀ l ∈ pyLines s, diskLineSafe l = true) → (parse_disk table s).isOk = true)
    ∧ (∀ s : String, (∀ l ∈ pyLines s, dockerLineSafe l = true) → (parse_docker s).isOk = true)
    ∧ (∀ s : String, journalSafe s = true → (parse_journal s).isOk = true)
    ∧ (∀ (table : List (String × Threshold)) (cores : Int) (s : String),
        cores ≠ 0 → (parse_load table cores s).isOk = true)
    ∧ parse_memory defaultThresholds "" =
        .ok (⟨"RAM", 0, "%", "error", "Failed to parse"⟩, ⟨"Swap", 0, "%", "ok", "No swap"⟩)
    ∧ parse_disk defaultThresholds "" = .ok []
    ∧ parse_processes "total garbage" = []
    ∧ parse_sessions "abc" = none
    ∧ parse_size_to_gb "!!!" = 0
    ∧ (parse_journal "1.2.3").isOk = false
    ∧ (parse_load defaultThresholds 0 "0.5 0.4 0.3").isOk = false
    ∧ parse_load [] 0 "abc" = .ok none := by
  refine ⟨?_, ?_, ?_, ?_, ?_, by decide, by decide, by decide, by decide, by decide,
    by decide, by decide, by decide⟩
  · intro table s h
    simp only [parse_memory]
    exact parse_memory_go_isOk table (pyLines s) _ h
  · intro table s h
    simp only [parse_disk]
    exact parse_disk_go_isOk table (pyLines s) [] h
  · intro s h
    have hgo := parse_docker_go_isOk (pyLines s) (⟨0, 1⟩, ⟨0, 1⟩) h
    cases hg : parse_docker_go (⟨0, 1⟩, ⟨0, 1⟩) (pyLines s) with
    | error e => rw [hg] at hgo; simp [Except.isOk, Except.toBool] at hgo
    | ok p =>
      obtain ⟨t, rc⟩ := p
      simp [parse_docker, hg, Except.isOk, Except.toBool]
  · intro s h
    rw [journalSafe] at h
    cases hm : journalMatch (pyTrim s).toList with
    | none =>
      rw [String.toList] at hm
      simp [parse_journal, hm, Except.isOk, Except.toBool]
    | some p =>
      obtain ⟨g1, u⟩ := p
      rw [hm] at h
      simp only at h
      rw [String.toList] at hm
      cases hf : pythonFloat (String.mk g1) with
      | error e => rw [hf] at h; simp [Except.isOk, Except.toBool] at h
      | ok v => simp [parse_journal, hm, hf, Except.isOk, Except.toBool]
  · intro table cores s hc
    rcases hsp : pySplitWs (pyTrim s) with _ | ⟨p0, _ | ⟨p1, _ | ⟨p2, rtail⟩⟩⟩
    · simp [parse_load, hsp, Except.isOk, Except.toBool]
    · cases hf : pythonFloat p0 <;>
        simp [parse_load, hsp, hf, hc, Except.isOk, Except.toBool]
    · cases hf : pythonFloat p0 <;>
        simp [parse_load, hsp, hf, hc, Except.isOk, Except.toBool]
    · cases hf : pythonFloat p0 <;>
        simp [parse_load, hsp, hf, hc, Except.isOk, Except.toBool]

/-- Witness for C4 amended on concrete well-formed inputs. -/

theorem C4_parser_resilience_amended_witness :
    (parse_memory defaultThresholds "Mem: 8 4\nSwap: 2 1").isOk = true
    ∧ (parse_disk defaultThresholds "/a 1 2 3 4%\nshort").isOk = true
    ∧ (parse_docker "Images\t2GB\t1GB (50%)").isOk = true
    ∧ (parse_journal "881.8M").isOk = true
    ∧ (parse_load defaultThresholds 4 "0.5 0.4 0.3").isOk = true := by
  refine ⟨?_, ?_, ?_, ?_, ?_⟩
  · exact C4_parser_resilience_amended.1 defaultThresholds _ (by decide)
  · exact C4_parser_resilience_amended.2.1 defaultThresholds _ (by decide)
  · exact C4_parser_resilience_amended.2.2.1 _ (by decide)
  · exact C4_parser_resilience_amended.2.2.2.1 _ (by decide)
  · exact C4_parser_resilience_amended.2.2.2.2.1 defaultThresholds 4 _ (by decide)

/-! ### Theorems for claims C1 and C8 -/

theorem countWC_append (a b : List String) : countWC (a ++ b) = countWC a + countWC b := by
  simp [countWC, List.filter_append]

theorem countC_append (a b : List String) : countC (a ++ b) = countC a + countC b := by
  simp [countC, List.filter_append]

theorem countWC_nil : countWC [] = 0 := rfl

theorem countC_nil : countC [] = 0 := rfl

theorem countWC_cons (s : String) (l : List String) :
    countWC (s :: l) = (if s = "critical" ∨ s = "warning" then 1 else 0) + countWC l := by
  by_cases hc : s = "critical" <;> by_cases hw : s = "warning" <;>
    simp [countWC, List.filter_cons, beq_iff_eq, hc, hw, Nat.add_comm]

theorem countC_cons (s : String) (l : List String) :
    countC (s :: l) = (if s = "critical" then 1 else 0) + countC l := by
  by_cases hc : s = "critical" <;> simp [countC, List.filter_cons, beq_iff_eq, hc, Nat.add_comm]

theorem issuePat_len1 (m : Metric) (a b c : String) :
    (issuePat m a b c).1.length = if m.status = "critical" ∨ m.status = "warning" then 1 else 0 := by
  by_cases hc : m.status = "critical" <;> by_cases hw : m.status = "warning" <;>
    simp [issuePat, hc, hw]

theorem issuePat_len2 (m : Metric) (a b c : String) :
    (issuePat m a b c).2.length = if m.status = "critical" then 1 else 0 := by
  by_cases hc : m.status = "critical" <;> by_cases hw : m.status = "warning" <;>
    simp [issuePat, hc, hw]

theorem diskIssuesAll_len1 (ds : List Metric) :
    (diskIssuesAll ds).1.length = countWC (ds.map (fun d => d.status)) := by
  induction ds with
  | nil => simp [diskIssuesAll, countWC]
  | cons d ds ih =>
    simp only [diskIssuesAll, List.map_cons, List.flatten_cons, List.length_append,
      countWC_cons]
    rw [show ((ds.map (fun d => (diskIssues d).1)).flatten).length = (diskIssuesAll ds).1.length
      from rfl, ih]
    simp [diskIssues, issuePat_len1]

theorem diskIssuesAll_len2 (ds : List Metric) :
    (diskIssuesAll ds).2.length = countC (ds.map (fun d => d.status)) := by
  induction ds with
  | nil => simp [diskIssuesAll, countC]
  | cons d ds ih =>
    simp only [diskIssuesAll, List.map_cons, List.flatten_cons, List.length_append,
      countC_cons]
    rw [show ((ds.map (fun d => (diskIssues d).2)).flatten).length = (diskIssuesAll ds).2.length
      from rfl, ih]
    simp [diskIssues, issuePat_len2]

/-- C1: the overall status of an analyzed report is computed from the
statuses of all contained metrics (cpu, ram, swap, sessions, docker and
journal when present, and every disk) by the precedence
critical > warning > error > ok; in particular statuses {ok, warning,
error} yield warning, {error, ok} yield error, {critical, ok} yield
critical and {ok} yields ok. -/

theorem C1_overall_status :
    (∀ r : HealthReport, (analyze_issues r).overall_status = specOverallStatus (statusList r))
    ∧ (analyze_issues (testReport "ok" "warning" "error" "ok" [])).overall_status = "warning"
    ∧ (analyze_issues (testReport "error" "ok" "ok" "ok" [])).overall_status = "error"
    ∧ (analyze_issues (testReport "critical" "ok" "ok" "ok" [])).overall_status = "critical"
    ∧ (analyze_issues (testReport "ok" "ok" "ok" "ok" [])).overall_status = "ok" := by
  refine ⟨?_, by decide, by decide, by decide, by decide⟩
  intro r
  show overallFromStatuses (statusList r) = specOverallStatus (statusList r)
  rw [overallFromStatuses, specOverallStatus]
  by_cases hc : "critical" ∈ statusList r
  · simp [List.elem_iff, hc]
  · by_cases hw : "warning" ∈ statusList r
    · simp [List.elem_iff, hc, hw]
    · by_cases he : "error" ∈ statusList r
      · simp [List.elem_iff, hc, hw, he]
      · simp [List.elem_iff, hc, hw, he]

/-- C8: the analyzer is a pure fold over the already-computed metrics:
it leaves every metric field unchanged, appends the issue strings block
by block in the fixed order CPU, RAM, swap, disks in report order,
sessions, docker, journal, with exactly one issue per warning-or-
critical metric in that scan order and exactly one recommendation per
critical metric. -/

theorem C8_issue_analyzer (r : HealthReport) :
    (analyze_issues r).cpu_load = r.cpu_load
    ∧ (analyze_issues r).ram = r.ram
    ∧ (analyze_issues r).swap = r.swap
    ∧ (analyze_issues r).disks = r.disks
    ∧ (analyze_issues r).sessions = r.sessions
    ∧ (analyze_issues r).docker = r.docker
    ∧ (analyze_issues r).journal_size = r.journal_size
    ∧ (analyze_issues r).issues =
        r.issues ++ (cpuIssues r.cpu_load).1 ++ (ramIssues r.ram).1 ++ (swapIssues r.swap).1
          ++ (diskIssuesAll r.disks).1 ++ (sessionIssues r.sessions).1
          ++ (optIssues dockerIssues r.docker).1 ++ (optIssues journalIssues r.journal_size).1
    ∧ (analyze_issues r).recommendations =
        r.recommendations ++ (cpuIssues r.cpu_load).2 ++ (ramIssues r.ram).2
          ++ (swapIssues r.swap).2 ++ (diskIssuesAll r.disks).2 ++ (sessionIssues r.sessions).2
          ++ (optIssues dockerIssues r.docker).2 ++ (optIssues journalIssues r.journal_size).2
    ∧ (analyze_issues r).issues.length = r.issues.length + countWC (scanStatuses r)
    ∧ (analyze_issues r).recommendations.length =
        r.recommendations.length + countC (scanStatuses r) := by
  refine ⟨rfl, rfl, rfl, rfl, rfl, rfl, rfl, rfl, rfl, ?_, ?_⟩
  · show (r.issues ++ (cpuIssues r.cpu_load).1 ++ (ramIssues r.ram).1 ++ (swapIssues r.swap).1
      ++ (diskIssuesAll r.disks).1 ++ (sessionIssues r.sessions).1
      ++ (optIssues dockerIssues r.docker).1
      ++ (optIssues journalIssues r.journal_size).1).length
      = r.issues.length + countWC (scanStatuses r)
    rw [scanStatuses]
    rcases hd : r.docker with _ | d <;> rcases hj : r.journal_size with _ | j <;>
      simp [List.length_append, countWC_append, countWC_cons, countWC_nil, cpuIssues,
        ramIssues, swapIssues, sessionIssues, dockerIssues, journalIssues, optIssues,
        issuePat_len1, diskIssuesAll_len1, hd, hj]
  · show (r.recommendations ++ (cpuIssues r.cpu_load).2 ++ (ramIssues r.ram).2
      ++ (swapIssues r.swap).2 ++ (diskIssuesAll r.disks).2 ++ (sessionIssues r.sessions).2
      ++ (optIssues dockerIssues r.docker).2
      ++ (optIssues journalIssues r.journal_size).2).length
      = r.recommendations.length + countC (scanStatuses r)
    rw [scanStatuses]
    rcases hd : r.docker with _ | d <;> rcases hj : r.journal_size with _ | j <;>
      simp [List.length_append, countC_append, countC_cons, countC_nil, cpuIssues,
        ramIssues, swapIssues, sessionIssues, dockerIssues, journalIssues, optIssues,
        issuePat_len2, diskIssuesAll_len2, hd, hj]

/-! ### Theorems for claim C5 -/

/-- C5: every failure mode of the transport (timeout, connection/SSH
failure, unexpected exception) is returned as a result with
success = false, exit_code = -1 and a non-empty error, never an
exception; and `execute_multiple` executes all commands sequentially,
producing one result per command at the matching position, so one
command's failure cannot prevent the execution of the rest. -/

theorem C5_transport_execute :
    (∀ t : Int,
      (execute t .timeout).success = false
      ∧ (execute t .timeout).exit_code = -1
      ∧ ∃ e, (execute t .timeout).error = some e ∧ 0 < e.length)
    ∧ (∀ (t : Int) (m : String),
      (execute t (.sshError m)).success = false
      ∧ (execute t (.sshError m)).exit_code = -1
      ∧ ∃ e, (execute t (.sshError m)).error = some e ∧ 0 < e.length)
    ∧ (∀ (t : Int) (m : String),
      (execute t (.unexpected m)).success = false
      ∧ (execute t (.unexpected m)).exit_code = -1
      ∧ ∃ e, (execute t (.unexpected m)).error = some e ∧ 0 < e.length)
    ∧ (∀ (env : String → ExecOutcome) (t : Int) (commands : List String),
      (execute_multiple env t commands).length = commands.length
      ∧ ∀ i : Nat, (execute_multiple env t commands)[i]? =
          (commands[i]?).map (fun cmd => (cmd, execute t (env cmd)))) := by
  have hlen : ∀ s t : String, (s ++ t).length = s.length + t.length := by
    intro s t
    simp [String.length_append]
  refine ⟨?_, ?_, ?_, ?_⟩
  · intro t
    refine ⟨rfl, rfl, "Connection timeout (" ++ intStr t ++ "s)", rfl, ?_⟩
    rw [hlen, hlen]
    have : ("Connection timeout (").length = 20 := by decide
    omega
  · intro t m
    refine ⟨rfl, rfl, "SSH error: " ++ m, rfl, ?_⟩
    rw [hlen]
    have : ("SSH error: ").length = 11 := by decide
    omega
  · intro t m
    refine ⟨rfl, rfl, "Unexpected error: " ++ m, rfl, ?_⟩
    rw [hlen]
    have : ("Unexpected error: ").length = 18 := by decide
    omega
  · intro env t commands
    refine ⟨by simp [execute_multiple], ?_⟩
    intro i
    simp [execute_multiple]

/-! ### Theorems for claim C3 -/

/-- C3 counterexample: with every command absent (total unreachability),
`collect` returns a report whose swap and sessions metrics have status
"ok", not "error", so not every metric defaults to error status. -/

theorem C3_total_failure_counterexample :
    ((collect (fun _ => none) "server" defaultThresholds 0).map (fun r => r.swap.status)) =
      .ok "ok"
    ∧ ((collect (fun _ => none) "server" defaultThresholds 0).map (fun r => r.sessions.status)) =
      .ok "ok"
    ∧ "ok" ≠ "error" := by
  exact ⟨by decide, by decide, by decide⟩

/-- C3 amended: when every command in the catalog fails (each
`ExecutionResult` has success = false or is absent), `collect` still
returns a `HealthReport` without raising, with cpu_load and ram
defaulted to status "error", swap and sessions defaulted to status
"ok", no disks, no docker or journal metric, hostname/uptime/os
unknown, and `overall_status` = "error". -/

theorem C3_total_failure_amended
    (results : String → Option SSHResult) (name : String)
    (table : List (String × Threshold)) (ts : Nat)
    (h : ∀ c r, results c = some r → r.success = false) :
    ∃ rep, collect results name table ts = .ok rep
      ∧ rep.overall_status = "error"
      ∧ rep.cpu_load.status = "error"
      ∧ rep.ram.status = "error"
      ∧ rep.swap.status = "ok"
      ∧ rep.sessions.status = "ok"
      ∧ rep.disks = []
      ∧ rep.docker = none
      ∧ rep.journal_size = none
      ∧ rep.hostname = "unknown"
      ∧ rep.uptime = "unknown"
      ∧ rep.issues = []
      ∧ rep.recommendations = [] := by
  have hget : ∀ c, getOk results c = none := by
    intro c
    rw [getOk]
    cases hr : results c with
    | none => rfl
    | some r =>
      have := h c r hr
      simp [this]
  refine ⟨analyze_issues
    { server_name := name, hostname := "unknown", timestamp := ts,
      uptime := "unknown", os_info := "unknown", overall_status := "error",
      cpu_load := { name := "CPU Load", value := 0, unit := "", status := "error" },
      cpu_load_per_core := 0,
      ram := { name := "RAM", value := 0, unit := "%", status := "error" },
      swap := { name := "Swap", value := 0, unit := "%", status := "ok" } },
    ?_, rfl, rfl, rfl, rfl, rfl, rfl, rfl, rfl, rfl, rfl, rfl, rfl⟩
  simp [collect, hget]
  rfl

/-- Witness for C3 amended at the everywhere-absent result map. -/

theorem C3_total_failure_amended_witness :
    ∃ rep, collect (fun _ => none) "server" defaultThresholds 0 = .ok rep
      ∧ rep.overall_status = "error"
      ∧ rep.cpu_load.status = "error"
      ∧ rep.ram.status = "error"
      ∧ rep.swap.status = "ok"
      ∧ rep.sessions.status = "ok"
      ∧ rep.disks = []
      ∧ rep.docker = none
      ∧ rep.journal_size = none
      ∧ rep.hostname = "unknown"
      ∧ rep.uptime = "unknown"
      ∧ rep.issues = []
      ∧ rep.recommendations = [] :=
  C3_total_failure_amended (fun _ => none) "server" defaultThresholds 0
    (fun _ _r hcr => Option.noConfusion hcr)
